import Mathlib

/-!
Verification development for the bike-share station dashboard script
(src/app.py).  The script loads a JSON document of station records,
derives display attributes (color by availability ratio, radius by
average available bikes, tooltip strings), filters by numeric ranges,
and reports visible counts.  Floats carried in pandas columns are
modelled as values of type Option Rat, with none standing for NaN
(which is also how a missing field of a record surfaces in a column);
pd.isna is the isNone test.  Python int() truncates toward zero, which
is modelled by pyInt below.
-/

/-- Python int() applied to a float: truncation toward zero. -/
def pyInt (x : ℚ) : ℤ := if 0 ≤ x then x.floor else x.ceil

/-- Python min of two numbers: the first argument wins a tie. -/
def pyMin (a b : ℚ) : ℚ := if a ≤ b then a else b

/-- Python max of two numbers: the first argument wins a tie. -/
def pyMax (a b : ℚ) : ℚ := if b ≤ a then a else b

/-- ratio_to_color (src/app.py lines 33-42): NaN gives the gray
sentinel; otherwise the value is clamped to the unit interval and
mapped to a red-green scale with int() truncation per channel. -/
def ratio_to_color (x : Option ℚ) : List ℤ :=
  match x with
  | none => [128, 128, 128]
  | some v =>
    let c := pyMax 0 (pyMin 1 v)
    [pyInt ((1 - c) * 255), pyInt (c * 255), 0]

/-- The normalization lambda applied to the availability_ratio column
(src/app.py lines 56-64): divide by 100 when the value exceeds 1,
keep it otherwise, default NaN to 0.5. -/
def normalize_ratio (x : Option ℚ) : ℚ :=
  match x with
  | some v => if 1 < v then v / 100 else v
  | none => 1 / 2

/-- The availability_display lambda (src/app.py lines 65-67). -/
def availability_display (x : Option ℚ) : String :=
  match x with
  | some v => toString (pyInt v) ++ "%"
  | none => "N/A"

/-- The docked info_line column (src/app.py lines 68-70). -/
def docked_info_line (x : Option ℚ) : String :=
  "Available Ratio: " ++ availability_display x

/-- The color column of the docked frame (src/app.py lines 71-75):
ratio_to_color applied to the normalized ratio, which is never NaN. -/
def docked_color (x : Option ℚ) : List ℤ :=
  ratio_to_color (some (normalize_ratio x))

/-- The radius lambda applied to the avg_num_of_available column
(src/app.py lines 91-97). -/
def dockless_radius (x : Option ℚ) : ℚ :=
  match x with
  | some v => if 10 ≤ v then 25 else pyMax 8 (8 + v)
  | none => pyMax 8 (8 + 0)

/-- The bikes_display lambda (src/app.py lines 98-100). -/
def bikes_display (x : Option ℚ) : String :=
  match x with
  | some v => toString (pyInt v)
  | none => "N/A"

/-- The dockless info_line column (src/app.py lines 101-103). -/
def dockless_info_line (x : Option ℚ) : String :=
  "Available bikes: " ++ bikes_display x

/-- A Python value sitting in the is_virtual_station column before the
bool cast: a bool, a number, a string, None, or a value whose bool()
raises (such as pandas NA). -/
inductive PyBool where
  | pb : Bool → PyBool
  | pnum : ℚ → PyBool
  | pstr : String → PyBool
  | pnone : PyBool
  | pna : PyBool
deriving DecidableEq

/-- Elementwise behaviour of astype(bool) (src/app.py line 48):
Python truthiness, raising on a value with no boolean meaning. -/
def astype_bool1 : PyBool → Except String Bool
  | .pb b => .ok b
  | .pnum q => .ok (decide (q ≠ 0))
  | .pstr s => .ok (decide (s ≠ ""))
  | .pnone => .ok false
  | .pna => .error "TypeError: boolean value of NA is ambiguous"

/-- A raw station row as loaded from the JSON file. -/
structure RawStation where
  name : String
  latitude : ℚ
  longitude : ℚ
  is_virtual_station : PyBool
  availability_ratio : Option ℚ
  avg_num_of_available : Option ℚ
deriving DecidableEq

/-- A station row after the is_virtual_station column was cast to bool. -/
structure CastStation where
  name : String
  latitude : ℚ
  longitude : ℚ
  is_virtual_station : Bool
  availability_ratio : Option ℚ
  avg_num_of_available : Option ℚ
deriving DecidableEq

/-- A row of the encoded docked frame (src/app.py lines 53-75). -/
structure DockedStation where
  base : CastStation
  station_type : String
  availability_ratio_normalized : ℚ
  availability_display : String
  info_line : String
  color : List ℤ
deriving DecidableEq

/-- A row of the encoded dockless frame (src/app.py lines 89-103). -/
structure DocklessStation where
  base : CastStation
  station_type : String
  radius : ℚ
  bikes_display : String
  info_line : String
deriving DecidableEq

/-- The columns added to a docked row (src/app.py lines 53-75). -/
def encode_docked (s : CastStation) : DockedStation :=
  { base := s
  , station_type := "Docked"
  , availability_ratio_normalized := normalize_ratio s.availability_ratio
  , availability_display := availability_display s.availability_ratio
  , info_line := docked_info_line s.availability_ratio
  , color := docked_color s.availability_ratio }

/-- The columns added to a dockless row (src/app.py lines 89-103). -/
def encode_dockless (s : CastStation) : DocklessStation :=
  { base := s
  , station_type := "Dockless"
  , radius := dockless_radius s.avg_num_of_available
  , bikes_display := bikes_display s.avg_num_of_available
  , info_line := dockless_info_line s.avg_num_of_available }

/-- astype(bool) over the whole is_virtual_station column: the first
failing element aborts the whole column (src/app.py line 48). -/
def cast_column : List RawStation → Except String (List Bool)
  | [] => .ok []
  | r :: rs =>
    match astype_bool1 r.is_virtual_station with
    | .error e => .error e
    | .ok b =>
      match cast_column rs with
      | .error e => .error e
      | .ok bs => .ok (b :: bs)

/-- A raw row combined with its cast is_virtual_station value. -/
def castRow (r : RawStation) (b : Bool) : CastStation :=
  { name := r.name
  , latitude := r.latitude
  , longitude := r.longitude
  , is_virtual_station := b
  , availability_ratio := r.availability_ratio
  , avg_num_of_available := r.avg_num_of_available }

/-- create_map_layers (src/app.py lines 45-116): casts the
is_virtual_station column in place on the input frame, partitions by
it, and encodes each partition.  The result carries the encoded docked
rows, the encoded dockless rows, and the input frame as it stands
after the in-place column assignment of line 48. -/
def create_map_layers (df : List RawStation) :
    Except String (List DockedStation × List DocklessStation × List RawStation) :=
  match cast_column df with
  | .error e => .error e
  | .ok bs =>
    let df2 := (df.zip bs).map (fun p => { p.1 with is_virtual_station := PyBool.pb p.2 })
    let cs := (df.zip bs).map (fun p => castRow p.1 p.2)
    let df_docked := (cs.filter (fun s => s.is_virtual_station == false)).map encode_docked
    let df_dockless := (cs.filter (fun s => s.is_virtual_station == true)).map encode_dockless
    .ok (df_docked, df_dockless, df2)

/-- Whether an Except value is a success. -/
def exOk (e : Except String α) : Bool :=
  match e with
  | .ok _ => true
  | .error _ => false

/-- The docked range filter (src/app.py lines 139-142): keep the rows
whose availability_ratio column satisfies both comparisons; a NaN
entry compares false on both sides and is dropped. -/
def ratio_filter_apply (lo hi : ℚ) (rs : List DockedStation) : List DockedStation :=
  rs.filter (fun s =>
    match s.base.availability_ratio with
    | some v => decide (lo ≤ v) && decide (v ≤ hi)
    | none => false)

/-- The dockless range filter (src/app.py lines 164-167). -/
def bikes_filter_apply (lo hi : ℚ) (rs : List DocklessStation) : List DocklessStation :=
  rs.filter (fun s =>
    match s.base.avg_num_of_available with
    | some v => decide (lo ≤ v) && decide (v ≤ hi)
    | none => false)

/-- The visible-count summary (src/app.py lines 128-213): each
category is filtered only when its toggle is on and its encoded frame
is non-empty, the per-category count is zero when the toggle is off,
and the total is the sum of the two counts (lines 211-213). -/
def visible_counts (sd sl : Bool) (rlo rhi blo bhi : ℚ)
    (dd : List DockedStation) (dl : List DocklessStation) : ℕ × ℕ × ℕ :=
  let dd2 := if sd && decide (0 < dd.length) then ratio_filter_apply rlo rhi dd else dd
  let dl2 := if sl && decide (0 < dl.length) then bikes_filter_apply blo bhi dl else dl
  let vd := if sd then dd2.length else 0
  let vl := if sl then dl2.length else 0
  (vd, vl, vd + vl)

/-- A parsed JSON value.  Objects are association lists with the
unique keys that json.load produces. -/
inductive JValue where
  | null : JValue
  | bool : Bool → JValue
  | num : ℚ → JValue
  | str : String → JValue
  | arr : List JValue → JValue
  | obj : List (String × JValue) → JValue

/-- Lookup of a key in a parsed JSON object. -/
def dictGet : List (String × JValue) → String → Option JValue
  | [], _ => none
  | (k, v) :: rest, key => if k = key then some v else dictGet rest key

/-- Python key-membership test on a parsed JSON object. -/
def dictHas (m : List (String × JValue)) (key : String) : Bool :=
  (dictGet m key).isSome

/-- Python equality of a string against an arbitrary JSON value: only
a string with the same characters compares equal. -/
def eqStrVal (needle : String) (v : JValue) : Bool :=
  match v with
  | .str s => decide (s = needle)
  | _ => false

/-- Python substring test: needle in hay. -/
def strContains (hay needle : String) : Bool :=
  (List.range (hay.data.length + 1)).any
    (fun i => ((hay.data.drop i).take needle.data.length) == needle.data)

/-- Python membership test needle in v, as evaluated by line 23 of
src/app.py: key membership on a dict, element membership on a list,
substring on a string, and a TypeError on a non-iterable value. -/
def pyIn (needle : String) (v : JValue) : Except String Bool :=
  match v with
  | .obj m => .ok (dictHas m needle)
  | .arr xs => .ok (xs.any (eqStrVal needle))
  | .str s => .ok (strContains s needle)
  | _ => .error "TypeError: argument is not iterable"

/-- Python string-subscript v[key], as evaluated by line 24 of
src/app.py: field access on a dict, a TypeError on anything else. -/
def pyIndex (v : JValue) (key : String) : Except String JValue :=
  match v with
  | .obj m =>
    match dictGet m key with
    | some w => .ok w
    | none => .error "KeyError"
  | .arr _ => .error "TypeError: list indices must be integers, got str"
  | .str _ => .error "TypeError: string indices must be integers, got str"
  | _ => .error "TypeError: value is not subscriptable"

/-- load_data after json.load (src/app.py lines 22-28): resolve the
station list from the parsed document. -/
def load_data (data : JValue) : Except String JValue :=
  match data with
  | .obj m =>
    if dictHas m "data" then
      let v := (dictGet m "data").getD .null
      match pyIn "stations" v with
      | .error e => .error e
      | .ok true => pyIndex v "stations"
      | .ok false => .ok v
    else .ok (.obj m)
  | d => .ok d

/-- Whether a parsed JSON value is an object (a Python dict). -/
def JValue.isObj : JValue → Bool
  | .obj _ => true
  | _ => false

/-- A well-formed docked station row: name A at (1, 2), 40 percent
availability. -/
def stGood : RawStation :=
  { name := "A", latitude := 1, longitude := 2, is_virtual_station := PyBool.pb false
  , availability_ratio := some 40, avg_num_of_available := none }

/-- A row whose is_virtual_station value cannot be cast to bool. -/
def stBad : RawStation :=
  { name := "B", latitude := 3, longitude := 4, is_virtual_station := PyBool.pna
  , availability_ratio := none, avg_num_of_available := none }

/-- A row whose is_virtual_station is the truthy string yes. -/
def stStr : RawStation :=
  { name := "M", latitude := 1, longitude := 2, is_virtual_station := PyBool.pstr "yes"
  , availability_ratio := none, avg_num_of_available := none }

/-- The row stStr as line 48 leaves it: the string replaced by True. -/
def stStrCast : RawStation :=
  { name := "M", latitude := 1, longitude := 2, is_virtual_station := PyBool.pb true
  , availability_ratio := none, avg_num_of_available := none }

/-- A dockless station row whose column value is already boolean. -/
def stDockless : RawStation :=
  { name := "D", latitude := 5, longitude := 6, is_virtual_station := PyBool.pb true
  , availability_ratio := none, avg_num_of_available := some 3 }

/-! Helper lemmas. -/

lemma pyInt_of_nonneg (x : ℚ) (h : 0 ≤ x) : pyInt x = ⌊x⌋ := by
  rw [pyInt, if_pos h, Rat.floor_def', Rat.floor_def]

lemma pyMin_eq (a b : ℚ) : pyMin a b = min a b := by
  rw [pyMin, min_def]

lemma pyMax_eq (a b : ℚ) : pyMax a b = max a b := by
  rw [pyMax, max_def]
  rcases le_total a b with h | h
  · rcases eq_or_lt_of_le h with rfl | hlt
    · simp
    · rw [if_pos h, if_neg (not_le.mpr hlt)]
  · rw [if_pos h]
    rcases eq_or_lt_of_le h with rfl | hlt
    · simp
    · rw [if_neg (not_le.mpr hlt)]

lemma int_floor_eq (q : ℚ) (z : ℤ) (h1 : (z : ℚ) ≤ q) (h2 : q < z + 1) : ⌊q⌋ = z := by
  rw [Int.floor_eq_iff]
  exact ⟨h1, h2⟩

lemma docked_color_eval (r : ℚ) (h0 : 0 ≤ r) (h1 : r ≤ 100) :
    docked_color (some r) =
      if 1 < r then [⌊(1 - r / 100) * 255⌋, ⌊r / 100 * 255⌋, 0]
      else [⌊(1 - r) * 255⌋, ⌊r * 255⌋, 0] := by
  rw [docked_color]
  rw [show normalize_ratio (some r) = if 1 < r then r / 100 else r from rfl]
  by_cases hr : 1 < r
  · rw [if_pos hr, if_pos hr]
    have hd0 : (0 : ℚ) ≤ r / 100 := by positivity
    have hd1 : r / 100 ≤ 1 := by
      rw [div_le_one (by norm_num : (0 : ℚ) < 100)]
      exact h1
    rw [show ratio_to_color (some (r / 100)) =
        [pyInt ((1 - pyMax 0 (pyMin 1 (r / 100))) * 255),
          pyInt (pyMax 0 (pyMin 1 (r / 100)) * 255), 0] from rfl]
    rw [pyMin_eq, pyMax_eq, min_eq_right hd1, max_eq_right hd0]
    rw [pyInt_of_nonneg _ (mul_nonneg (by linarith) (by norm_num)),
      pyInt_of_nonneg _ (mul_nonneg hd0 (by norm_num))]
  · rw [if_neg hr, if_neg hr]
    have hle : r ≤ 1 := le_of_not_lt hr
    rw [show ratio_to_color (some r) =
        [pyInt ((1 - pyMax 0 (pyMin 1 r)) * 255),
          pyInt (pyMax 0 (pyMin 1 r) * 255), 0] from rfl]
    rw [pyMin_eq, pyMax_eq, min_eq_right hle, max_eq_right h0]
    rw [pyInt_of_nonneg _ (mul_nonneg (by linarith) (by norm_num)),
      pyInt_of_nonneg _ (mul_nonneg h0 (by norm_num))]

lemma docked_color_none_eval : docked_color none = [127, 127, 0] := by
  rw [docked_color]
  rw [show normalize_ratio none = 1 / 2 from rfl]
  rw [show ratio_to_color (some ((1 : ℚ) / 2)) =
      [pyInt ((1 - pyMax 0 (pyMin 1 ((1 : ℚ) / 2))) * 255),
        pyInt (pyMax 0 (pyMin 1 ((1 : ℚ) / 2)) * 255), 0] from rfl]
  rw [pyMin_eq, pyMax_eq]
  rw [min_eq_right (by norm_num : (1 : ℚ) / 2 ≤ 1)]
  rw [max_eq_right (by norm_num : (0 : ℚ) ≤ 1 / 2)]
  rw [pyInt_of_nonneg _ (by norm_num), pyInt_of_nonneg _ (by norm_num)]
  rw [int_floor_eq ((1 - 1 / 2) * 255) 127 (by norm_num) (by norm_num),
    int_floor_eq (1 / 2 * 255) 127 (by norm_num) (by norm_num)]

lemma ratio_to_color_some_ne_gray (v : ℚ) : ratio_to_color (some v) ≠ [128, 128, 128] := by
  rw [show ratio_to_color (some v) =
      [pyInt ((1 - pyMax 0 (pyMin 1 v)) * 255), pyInt (pyMax 0 (pyMin 1 v) * 255), 0] from rfl]
  simp

/-! Claim theorems. -/

/-- Claim C1, counterexample: for the valid ratio 25 the code yields the
truncated color (191, 63, 0), while the claimed round-to-nearest formula
yields (191, 64, 0). -/
theorem ratio_color_round_cex :
    docked_color (some 25) = [191, 63, 0]
  ∧ round ((1 - (25 : ℚ) / 100) * 255) = 191
  ∧ round ((25 : ℚ) / 100 * 255) = 64
  ∧ ([191, 63, 0] : List ℤ) ≠ [191, 64, 0] := by
  refine ⟨?_, ?_, ?_, by simp⟩
  · rw [docked_color_eval 25 (by norm_num) (by norm_num),
      if_pos (by norm_num : (1 : ℚ) < 25),
      int_floor_eq ((1 - 25 / 100) * 255) 191 (by norm_num) (by norm_num),
      int_floor_eq (25 / 100 * 255) 63 (by norm_num) (by norm_num)]
  · rw [round_eq, int_floor_eq _ 191 (by norm_num) (by norm_num)]
  · rw [round_eq, int_floor_eq _ 64 (by norm_num) (by norm_num)]

/-- Claim C1, amended: for a valid ratio r in [0, 100] the docked fill
color divides by 100 only when r exceeds 1 (below that the raw value is
used as the normalized ratio directly), and each channel is truncated
with int(), i.e. floored, not rounded to nearest. -/
theorem docked_color_valid (r : ℚ) (h0 : 0 ≤ r) (h1 : r ≤ 100) :
    docked_color (some r) =
      if 1 < r then [⌊(1 - r / 100) * 255⌋, ⌊r / 100 * 255⌋, 0]
      else [⌊(1 - r) * 255⌋, ⌊r * 255⌋, 0] :=
  docked_color_eval r h0 h1

/-- Claim C1, witness at r = 40. -/
theorem docked_color_valid_witness :
    (0 : ℚ) ≤ 40 ∧ (40 : ℚ) ≤ 100 ∧
      docked_color (some 40) =
        (if 1 < (40 : ℚ) then
          [⌊(1 - (40 : ℚ) / 100) * 255⌋, ⌊(40 : ℚ) / 100 * 255⌋, 0]
        else [⌊(1 - (40 : ℚ)) * 255⌋, ⌊(40 : ℚ) * 255⌋, 0]) :=
  ⟨by norm_num, by norm_num, docked_color_valid 40 (by norm_num) (by norm_num)⟩

/-- Claim C2, counterexample: a NaN availability ratio is colorized as
(127, 127, 0), which is neither the claimed gray sentinel (128, 128, 128)
nor the claimed (128, 128, 0). -/
theorem missing_ratio_color_cex :
    docked_color none = [127, 127, 0]
  ∧ ([127, 127, 0] : List ℤ) ≠ [128, 128, 128]
  ∧ ([127, 127, 0] : List ℤ) ≠ [128, 128, 0] :=
  ⟨docked_color_none_eval, by simp, by simp⟩

/-- Claim C2, amended: the docked pipeline does not distinguish the two
missing-data cases; every NaN or missing ratio is normalized to 0.5 and
colorized to (127, 127, 0), and the gray sentinel of ratio_to_color is
unreachable because normalization never passes NaN on. -/
theorem docked_color_missing (x : Option ℚ) :
    docked_color none = [127, 127, 0] ∧ docked_color x ≠ [128, 128, 128] :=
  ⟨docked_color_none_eval, ratio_to_color_some_ne_gray (normalize_ratio x)⟩

/-- Claim C3, confirmed: a dockless station with average a at least 10
gets radius 25; with 0 ≤ a < 10 it gets max(8, 8 + a); with a missing
average it gets 8. -/
theorem dockless_radius_spec (a : ℚ) :
    (10 ≤ a → dockless_radius (some a) = 25)
  ∧ (0 ≤ a → a < 10 → dockless_radius (some a) = max 8 (8 + a))
  ∧ dockless_radius none = 8 := by
  refine ⟨fun h => ?_, fun h0 h10 => ?_, ?_⟩
  · rw [show dockless_radius (some a) = if 10 ≤ a then 25 else pyMax 8 (8 + a) from rfl,
      if_pos h]
  · rw [show dockless_radius (some a) = if 10 ≤ a then 25 else pyMax 8 (8 + a) from rfl,
      if_neg (not_le.mpr h10), pyMax_eq]
  · rw [show dockless_radius none = pyMax 8 (8 + 0) from rfl, pyMax_eq, add_zero, max_self]

/-- Claim C3, witness at a = 12 and a = 3. -/
theorem dockless_radius_spec_witness :
    ((10 : ℚ) ≤ 12 ∧ dockless_radius (some 12) = 25)
  ∧ ((0 : ℚ) ≤ 3 ∧ (3 : ℚ) < 10 ∧ dockless_radius (some 3) = max 8 (8 + 3)) :=
  ⟨⟨by norm_num, (dockless_radius_spec 12).1 (by norm_num)⟩,
    ⟨by norm_num, by norm_num, (dockless_radius_spec 3).2.1 (by norm_num) (by norm_num)⟩⟩

/-- Claim C8, counterexample: for the ratio 40.7 the tooltip shows 40
(int() truncation) although rounding to the nearest integer gives 41. -/
theorem docked_tooltip_round_cex :
    docked_info_line (some (407 / 10)) = "Available Ratio: 40%"
  ∧ round ((407 : ℚ) / 10) = 41
  ∧ ("Available Ratio: 40%" : String) ≠ "Available Ratio: 41%" := by
  refine ⟨?_, ?_, by decide⟩
  · rw [docked_info_line]
    rw [show availability_display (some ((407 : ℚ) / 10)) =
        toString (pyInt (407 / 10)) ++ "%" from rfl]
    rw [pyInt_of_nonneg _ (by norm_num),
      int_floor_eq ((407 : ℚ) / 10) 40 (by norm_num) (by norm_num)]
    rfl
  · rw [round_eq, int_floor_eq ((407 : ℚ) / 10 + 1 / 2) 41 (by norm_num) (by norm_num)]

/-- Claim C8, amended: the docked tooltip is Available Ratio followed by
the original ratio truncated toward zero by int() (not rounded to the
nearest integer), with N/A when the ratio is missing. -/
theorem docked_tooltip_text (x : ℚ) :
    docked_info_line (some x) = "Available Ratio: " ++ (toString (pyInt x) ++ "%")
  ∧ docked_info_line none = "Available Ratio: N/A" :=
  ⟨rfl, rfl⟩

/-- Claim C5, confirmed: each range filter keeps exactly the records of
the input whose relevant metric is a number between the bounds,
inclusive at both ends — the availability ratio for docked records and
the average available bikes for dockless records. -/
theorem filter_range_membership (lo hi : ℚ) (s : DockedStation) (rs : List DockedStation)
    (t : DocklessStation) (ts : List DocklessStation) :
    (s ∈ ratio_filter_apply lo hi rs ↔
      s ∈ rs ∧ ∃ v, s.base.availability_ratio = some v ∧ lo ≤ v ∧ v ≤ hi)
  ∧ (t ∈ bikes_filter_apply lo hi ts ↔
      t ∈ ts ∧ ∃ v, t.base.avg_num_of_available = some v ∧ lo ≤ v ∧ v ≤ hi) := by
  constructor
  · rw [ratio_filter_apply, List.mem_filter]
    refine and_congr_right fun _ => ?_
    cases h : s.base.availability_ratio with
    | none => simp [h]
    | some v => simp [h]
  · rw [bikes_filter_apply, List.mem_filter]
    refine and_congr_right fun _ => ?_
    cases h : t.base.avg_num_of_available with
    | none => simp [h]
    | some v => simp [h]

/-- Claim C6, confirmed: a toggled-off category contributes a visible
count of zero regardless of the bounds and of its pre-filter subset,
and the reported total is always the sum of the two visible counts. -/
theorem visible_counts_spec (sd sl : Bool) (rlo rhi blo bhi : ℚ)
    (dd : List DockedStation) (dl : List DocklessStation) :
    (visible_counts false sl rlo rhi blo bhi dd dl).1 = 0
  ∧ (visible_counts sd false rlo rhi blo bhi dd dl).2.1 = 0
  ∧ (visible_counts sd sl rlo rhi blo bhi dd dl).2.2 =
      (visible_counts sd sl rlo rhi blo bhi dd dl).1
        + (visible_counts sd sl rlo rhi blo bhi dd dl).2.1 := by
  refine ⟨?_, ?_, ?_⟩ <;> simp [visible_counts]

/-- Claim C7, confirmed: both range filters are idempotent — filtering
an already-filtered set with the same bounds returns it unchanged. -/
theorem filter_idempotent (lo hi : ℚ) (rs : List DockedStation) (ts : List DocklessStation) :
    ratio_filter_apply lo hi (ratio_filter_apply lo hi rs) = ratio_filter_apply lo hi rs
  ∧ bikes_filter_apply lo hi (bikes_filter_apply lo hi ts) = bikes_filter_apply lo hi ts := by
  constructor
  · simp only [ratio_filter_apply, List.filter_filter, Bool.and_self]
  · simp only [bikes_filter_apply, List.filter_filter, Bool.and_self]

lemma exOk_cast_column (l : List RawStation) :
    exOk (cast_column l) = true ↔ ∀ r ∈ l, r.is_virtual_station ≠ PyBool.pna := by
  induction l with
  | nil => simp [cast_column, exOk]
  | cons r rs ih =>
    cases hv : r.is_virtual_station <;> cases hc : cast_column rs <;>
      simp_all [cast_column, astype_bool1, exOk]

/-- Claim C9, counterexample: a batch holding one good record and one
record whose is_virtual_station cannot be cast fails as a whole — no
record is encoded — although the good record alone encodes fine. -/
theorem virtual_cast_abort_cex :
    create_map_layers [stGood, stBad] = .error "TypeError: boolean value of NA is ambiguous"
  ∧ exOk (create_map_layers [stGood]) = true :=
  ⟨rfl, rfl⟩

/-- Claim C9, amended: an is_virtual_station value that cannot be cast
to boolean aborts the whole batch — create_map_layers raises out of the
astype call and encodes nothing, with no per-record skip or warning; the
encoding succeeds exactly when no record carries such a value. -/
theorem create_map_layers_batch_ok (df : List RawStation) :
    exOk (create_map_layers df) = true ↔ ∀ r ∈ df, r.is_virtual_station ≠ PyBool.pna := by
  rw [← exOk_cast_column df]
  cases hc : cast_column df <;> simp [create_map_layers, hc, exOk]

lemma cast_column_ok_length (df : List RawStation) (bs : List Bool)
    (h : cast_column df = .ok bs) : bs.length = df.length := by
  induction df generalizing bs with
  | nil =>
    simp only [cast_column] at h
    injection h with h2
    subst h2
    rfl
  | cons x xs ih =>
    cases hb : astype_bool1 x.is_virtual_station with
    | error e =>
      simp only [cast_column, hb] at h
      exact Except.noConfusion h
    | ok b =>
      cases hc : cast_column xs with
      | error e =>
        simp only [cast_column, hb, hc] at h
        exact Except.noConfusion h
      | ok bs0 =>
        simp only [cast_column, hb, hc] at h
        injection h with h2
        subst h2
        simp [ih bs0 hc]

lemma cast_column_ok_get (df : List RawStation) (bs : List Bool)
    (h : cast_column df = .ok bs) (i : ℕ) (r : RawStation) (hr : df[i]? = some r) :
    ∃ b, bs[i]? = some b ∧ astype_bool1 r.is_virtual_station = Except.ok b := by
  induction df generalizing bs i with
  | nil => simp at hr
  | cons x xs ih =>
    cases hb : astype_bool1 x.is_virtual_station with
    | error e =>
      simp only [cast_column, hb] at h
      exact Except.noConfusion h
    | ok b0 =>
      cases hc : cast_column xs with
      | error e =>
        simp only [cast_column, hb, hc] at h
        exact Except.noConfusion h
      | ok bs0 =>
        simp only [cast_column, hb, hc] at h
        injection h with h2
        subst h2
        cases i with
        | zero =>
          simp only [List.getElem?_cons_zero, Option.some.injEq] at hr
          subst hr
          exact ⟨b0, by simp, hb⟩
        | succ n =>
          simp only [List.getElem?_cons_succ] at hr
          obtain ⟨b, hbs, hab⟩ := ih bs0 hc n hr
          exact ⟨b, by simpa using hbs, hab⟩

lemma zip_getElem_some {α β : Type} (l1 : List α) (l2 : List β) (i : ℕ) (a : α) (b : β)
    (h1 : l1[i]? = some a) (h2 : l2[i]? = some b) : (l1.zip l2)[i]? = some (a, b) := by
  induction l1 generalizing l2 i with
  | nil => simp at h1
  | cons x xs ih =>
    cases l2 with
    | nil => simp at h2
    | cons y ys =>
      cases i with
      | zero =>
        simp only [List.getElem?_cons_zero, Option.some.injEq] at h1 h2
        subst h1
        subst h2
        rw [List.zip_cons_cons]
        simp
      | succ n =>
        simp only [List.getElem?_cons_succ] at h1 h2
        rw [List.zip_cons_cons]
        simp only [List.getElem?_cons_succ]
        exact ih ys n h1 h2

/-- Claim C10, counterexample: a record with the truthy string value in
is_virtual_station comes out of create_map_layers with that field
overwritten by True in the input frame — the loaded record set is
mutated in place by the cast of line 48. -/
theorem frame_mutation_cex :
    (create_map_layers [stStr]).map (fun t => t.2.2) = .ok [stStrCast]
  ∧ stStrCast ≠ stStr := by
  refine ⟨rfl, fun h => ?_⟩
  simp [stStrCast, stStr] at h

/-- Claim C10, amended: when the batch encodes, the input frame is
returned with exactly its is_virtual_station column rewritten in place
to the boolean cast of its old value — all other fields are unchanged,
and a record whose value was already boolean is returned unchanged. -/
theorem create_map_layers_frame (df : List RawStation) (dd : List DockedStation)
    (dl : List DocklessStation) (df2 : List RawStation)
    (h : create_map_layers df = .ok (dd, dl, df2)) :
    df2.length = df.length
  ∧ (∀ (i : ℕ) (r : RawStation), df[i]? = some r →
      ∃ b, astype_bool1 r.is_virtual_station = Except.ok b
      ∧ df2[i]? = some { r with is_virtual_station := PyBool.pb b })
  ∧ (∀ (i : ℕ) (r : RawStation) (b0 : Bool), df[i]? = some r →
      r.is_virtual_station = PyBool.pb b0 → df2[i]? = some r) := by
  cases hc : cast_column df with
  | error e =>
    simp only [create_map_layers, hc] at h
    exact Except.noConfusion h
  | ok bs =>
    simp only [create_map_layers, hc, Except.ok.injEq, Prod.mk.injEq] at h
    obtain ⟨h3, h4, h5⟩ := h
    subst h5
    refine ⟨?_, ?_, ?_⟩
    · rw [List.length_map, List.length_zip, cast_column_ok_length df bs hc, min_self]
    · intro i r hr
      obtain ⟨b, hbs, hab⟩ := cast_column_ok_get df bs hc i r hr
      refine ⟨b, hab, ?_⟩
      rw [List.getElem?_map, zip_getElem_some df bs i r b hr hbs]
      rfl
    · intro i r b0 hr hb0
      obtain ⟨b, hbs, hab⟩ := cast_column_ok_get df bs hc i r hr
      rw [hb0] at hab
      have hbb : b0 = b := by
        simpa [astype_bool1] using hab
      subst hbb
      rw [List.getElem?_map, zip_getElem_some df bs i r b0 hr hbs]
      show some ({ name := r.name, latitude := r.latitude, longitude := r.longitude, is_virtual_station := PyBool.pb b0, availability_ratio := r.availability_ratio, avg_num_of_available := r.avg_num_of_available } : RawStation) = some r
      rw [← hb0]

/-- Claim C10, witness: an already-boolean frame passes through with the
column rewritten to the same value. -/
theorem create_map_layers_frame_witness :
    ([stDockless] : List RawStation).length = ([stDockless] : List RawStation).length
  ∧ (∀ (i : ℕ) (r : RawStation), ([stDockless] : List RawStation)[i]? = some r →
      ∃ b, astype_bool1 r.is_virtual_station = Except.ok b
        ∧ ([stDockless] : List RawStation)[i]? =
            some { r with is_virtual_station := PyBool.pb b })
  ∧ (∀ (i : ℕ) (r : RawStation) (b0 : Bool),
      ([stDockless] : List RawStation)[i]? = some r →
      r.is_virtual_station = PyBool.pb b0 →
        ([stDockless] : List RawStation)[i]? = some r) :=
  create_map_layers_frame [stDockless] []
    [encode_dockless (castRow stDockless true)] [stDockless] rfl

/-- Claim C4, counterexample: on the document with 42 under the data
key the loader raises a TypeError from the membership test instead of
using the value directly as the claim requires. -/
theorem load_data_typeerror_cex :
    load_data (JValue.obj [("data", JValue.num 42)])
        = Except.error "TypeError: argument is not iterable"
  ∧ (Except.error "TypeError: argument is not iterable" : Except String JValue)
        ≠ Except.ok (JValue.num 42) :=
  ⟨rfl, fun h => Except.noConfusion h⟩

/-- Claim C4, amended: the resolution order holds with Python membership
semantics — data.stations is used when the value under data is a mapping
with a stations key, the value itself is used when it is a mapping
without that key, a list without the element, or a string without the
substring, and the whole document is used when the top level is not a
mapping containing data; but a non-container value under data makes the
membership test itself raise TypeError, and a list or string that does
contain stations makes the subsequent string-subscript raise TypeError. -/
theorem load_data_resolution :
    (∀ d : JValue, d.isObj = false → load_data d = .ok d)
  ∧ (∀ m, dictHas m "data" = false → load_data (.obj m) = .ok (.obj m))
  ∧ (∀ m mv w, dictGet m "data" = some (.obj mv) → dictGet mv "stations" = some w →
      load_data (.obj m) = .ok w)
  ∧ (∀ m mv, dictGet m "data" = some (.obj mv) → dictGet mv "stations" = none →
      load_data (.obj m) = .ok (.obj mv))
  ∧ (∀ m xs, dictGet m "data" = some (.arr xs) → xs.any (eqStrVal "stations") = false →
      load_data (.obj m) = .ok (.arr xs))
  ∧ (∀ m xs, dictGet m "data" = some (.arr xs) → xs.any (eqStrVal "stations") = true →
      load_data (.obj m) = .error "TypeError: list indices must be integers, got str")
  ∧ (∀ m s, dictGet m "data" = some (.str s) → strContains s "stations" = false →
      load_data (.obj m) = .ok (.str s))
  ∧ (∀ m s, dictGet m "data" = some (.str s) → strContains s "stations" = true →
      load_data (.obj m) = .error "TypeError: string indices must be integers, got str")
  ∧ (∀ m v, dictGet m "data" = some v →
      (v = JValue.null ∨ (∃ b, v = JValue.bool b) ∨ (∃ q, v = JValue.num q)) →
      load_data (.obj m) = .error "TypeError: argument is not iterable") := by
  refine ⟨?_, ?_, ?_, ?_, ?_, ?_, ?_, ?_, ?_⟩
  · intro d hd
    cases d <;> simp_all [load_data, JValue.isObj]
  · intro m hm
    simp [load_data, hm]
  · intro m mv w hget hsta
    simp [load_data, dictHas, hget, pyIn, pyIndex, hsta]
  · intro m mv hget hsta
    simp [load_data, dictHas, hget, pyIn, pyIndex, hsta]
  · intro m xs hget hany
    simp [load_data, dictHas, hget, pyIn, hany]
  · intro m xs hget hany
    simp [load_data, dictHas, hget, pyIn, pyIndex, hany]
  · intro m s hget hsub
    simp [load_data, dictHas, hget, pyIn, hsub]
  · intro m s hget hsub
    simp [load_data, dictHas, hget, pyIn, pyIndex, hsub]
  · intro m v hget hv
    rcases hv with rfl | ⟨b, rfl⟩ | ⟨q, rfl⟩ <;>
      simp [load_data, dictHas, hget, pyIn]

/-- Claim C4, witness: the documented data.stations shape resolves to
the inner list. -/
theorem load_data_resolution_witness :
    dictGet [("data", JValue.obj [("stations", JValue.arr [])])] "data"
        = some (JValue.obj [("stations", JValue.arr [])])
  ∧ dictGet [("stations", JValue.arr [])] "stations" = some (JValue.arr [])
  ∧ load_data (JValue.obj [("data", JValue.obj [("stations", JValue.arr [])])])
        = Except.ok (JValue.arr []) :=
  ⟨rfl, rfl, load_data_resolution.2.2.1 _ _ _ rfl rfl⟩
